import Mathlib

/-!
Verification of the OPS Center workbench role manager, RPC dispatcher and
chat-command parameter extraction, as a shallow embedding of the Python
sources (`workbench_role_manager.py`, `rpc_server.py`,
`web_chat_interface.py`).

The SQLite tables are modelled as Lean lists of rows; each Python method
becomes a pure function from the table state (plus its arguments) to its
result and, for mutating methods, the new table state.  Timestamps are
abstracted as naturals supplied by the caller (the code only stores and
echoes them).
-/

namespace OpsCenter

/-- A row of the `workbench_roles` table (`models.py` gives the columns:
workbench_id, agent, role, assigned_at, assigned_by, is_active; the
integer primary key is assigned by the database and never read by the
code under verification, so it is omitted). -/
structure RoleRow where
  workbench_id : Int
  agent : String
  role : String
  assigned_at : Nat
  assigned_by : String
  is_active : Bool
deriving Repr, DecidableEq

/-- A row of the `workbench` table: id, unique name, description. -/
structure Workbench where
  id : Int
  name : String
  description : String
deriving Repr, DecidableEq

/-- The database state seen by `WorkbenchRoleManager`: the `workbench`
table and the `workbench_roles` table, each as a list of rows in
insertion order. -/
structure RolesDB where
  workbenches : List Workbench
  rows : List RoleRow
deriving Repr, DecidableEq

/-- `WorkbenchRoleManager.STANDARD_ROLES`. -/
def STANDARD_ROLES : List String := ["Assessor", "Reviewer", "Team Lead", "Viewer"]

/-- The active role rows of one workbench: the SQL filter
`workbench_id = ? AND is_active = 1` used by the queries. -/
def activeRowsFor (rows : List RoleRow) (workbench_id : Int) : List RoleRow :=
  rows.filter (fun r => r.workbench_id == workbench_id && r.is_active)

/-- `COUNT(wr.id)` over the active rows of one workbench (the LEFT JOIN
in `get_workbench_coverage_report` contributes one counted row per
active assignment, and zero rows when there is none). -/
def activeAssignmentCount (rows : List RoleRow) (workbench_id : Int) : Nat :=
  (activeRowsFor rows workbench_id).length

/-- Number of active rows of one workbench carrying one given role:
`COUNT(CASE WHEN wr.role = '<role>' THEN 1 END)`. -/
def activeRoleCount (rows : List RoleRow) (workbench_id : Int) (role : String) : Nat :=
  ((activeRowsFor rows workbench_id).filter (fun r => r.role == role)).length

/-- Spec-side quantity: the number of distinct standard roles having at
least one active assignment in a workbench ("distinct_roles_filled" /
"filled_roles" in the spec).  This is NOT what the code computes; it is
stated here to compare the spec with the code. -/
def filledStandardRoles (rows : List RoleRow) (workbench_id : Int) : Nat :=
  (STANDARD_ROLES.filter
    (fun ρ => (activeRowsFor rows workbench_id).any (fun r => r.role == ρ))).length

/-- One per-workbench entry of the coverage report. -/
structure CoverageRow where
  workbench_id : Int
  workbench_name : String
  assessors : Nat
  reviewers : Nat
  team_leads : Nat
  viewers : Nat
  total_assignments : Nat
  coverage_percentage : ℚ
  gaps : Nat
deriving Repr, DecidableEq

/-- The per-workbench coverage entry built by the loop body of
`get_workbench_coverage_report`: note that `coverage_percentage` and
`gaps` are computed from `total` (the count of ALL active assignments),
not from the number of distinct roles filled. -/
def coverageRowFor (rows : List RoleRow) (w : Workbench) : CoverageRow :=
  let total := activeAssignmentCount rows w.id
  { workbench_id := w.id
    workbench_name := w.name
    assessors := activeRoleCount rows w.id "Assessor"
    reviewers := activeRoleCount rows w.id "Reviewer"
    team_leads := activeRoleCount rows w.id "Team Lead"
    viewers := activeRoleCount rows w.id "Viewer"
    total_assignments := total
    coverage_percentage := ((total : ℚ) / (STANDARD_ROLES.length : ℚ)) * 100
    gaps := STANDARD_ROLES.length - min total STANDARD_ROLES.length }

/-- The value returned by `get_workbench_coverage_report`. -/
structure CoverageReport where
  workbenches : List CoverageRow
  total_workbenches : Nat
  total_role_gaps : Nat
  fully_covered_workbenches : Nat
deriving Repr, DecidableEq

/-- `WorkbenchRoleManager.get_workbench_coverage_report`: one entry per
workbench (the SQL groups by workbench and orders by id; row order is
irrelevant to every property proved below, so the list keeps the
`workbench` table order), plus the aggregate counts. -/
def get_workbench_coverage_report (db : RolesDB) : CoverageReport :=
  let ws := db.workbenches.map (coverageRowFor db.rows)
  { workbenches := ws
    total_workbenches := ws.length
    total_role_gaps := (ws.map (fun w => w.gaps)).sum
    fully_covered_workbenches := (ws.filter (fun w => w.gaps == 0)).length }

/-- Concrete database refuting C1 and C2: one workbench (id 1) whose
only active assignments are two Assessors, so one distinct role is
filled but the total assignment count is 2. -/
def twoAssessorDB : RolesDB :=
  { workbenches := [⟨1, "Fraud", "fraud queue"⟩]
    rows := [⟨1, "alice", "Assessor", 0, "system", true⟩,
             ⟨1, "bob", "Assessor", 1, "system", true⟩] }

/-- C1 (counterexample): in the two-Assessor database the code reports a
coverage_percentage of 50 for workbench 1, while (distinct standard roles
with an active assignment / 4) * 100 = 25, so the claimed equality is
false. -/
theorem c1_counterexample :
    ¬ ∀ row ∈ (get_workbench_coverage_report twoAssessorDB).workbenches,
        row.coverage_percentage
          = ((filledStandardRoles twoAssessorDB.rows row.workbench_id : ℚ) / 4) * 100 := by
  intro h
  have h1 := h (coverageRowFor twoAssessorDB.rows ⟨1, "Fraud", "fraud queue"⟩)
      (by exact List.mem_singleton_self _)
  simp only [coverageRowFor] at h1
  have ha : activeAssignmentCount twoAssessorDB.rows (1 : Int) = 2 := rfl
  have hf : filledStandardRoles twoAssessorDB.rows (1 : Int) = 1 := rfl
  rw [ha, hf] at h1
  norm_num [STANDARD_ROLES] at h1

/-- C1 (amended): every row of the coverage report is the entry of some
workbench of the database, and its reported coverage_percentage equals
(number of active role assignments in that workbench / 4) * 100 — the
total count of active assignments, not the count of distinct roles
filled. -/
theorem c1_coverage_percentage_is_total_over_four (db : RolesDB) (row : CoverageRow)
    (h : row ∈ (get_workbench_coverage_report db).workbenches) :
    ∃ w ∈ db.workbenches, row = coverageRowFor db.rows w ∧
      row.coverage_percentage = ((activeAssignmentCount db.rows w.id : ℚ) / 4) * 100 := by
  simp only [get_workbench_coverage_report, List.mem_map] at h
  obtain ⟨w, hw, rfl⟩ := h
  exact ⟨w, hw, rfl, rfl⟩

/-- Witness for the amended C1 at the concrete two-Assessor database. -/
theorem c1_coverage_percentage_is_total_over_four_witness :
    ∃ w ∈ twoAssessorDB.workbenches,
      coverageRowFor twoAssessorDB.rows ⟨1, "Fraud", "fraud queue"⟩
        = coverageRowFor twoAssessorDB.rows w ∧
      (coverageRowFor twoAssessorDB.rows ⟨1, "Fraud", "fraud queue"⟩).coverage_percentage
        = ((activeAssignmentCount twoAssessorDB.rows w.id : ℚ) / 4) * 100 :=
  c1_coverage_percentage_is_total_over_four twoAssessorDB _
    (by exact List.mem_singleton_self _)

/-- C2 (counterexample): in the two-Assessor database the code reports
gaps = 2 for workbench 1 (4 − min(total = 2, 4)), while
4 − min(distinct filled roles = 1, 4) = 3, so the claimed equality is
false. -/
theorem c2_counterexample :
    ¬ ∀ row ∈ (get_workbench_coverage_report twoAssessorDB).workbenches,
        row.gaps = 4 - min (filledStandardRoles twoAssessorDB.rows row.workbench_id) 4 := by
  decide

/-- C2 (amended): every row of the coverage report has
gaps = 4 − min(total active assignments of the workbench, 4) — again the
total count of active assignments, not the count of distinct roles
filled. -/
theorem c2_gaps_is_four_minus_min_total (db : RolesDB) (row : CoverageRow)
    (h : row ∈ (get_workbench_coverage_report db).workbenches) :
    ∃ w ∈ db.workbenches, row = coverageRowFor db.rows w ∧
      row.gaps = 4 - min (activeAssignmentCount db.rows w.id) 4 := by
  simp only [get_workbench_coverage_report, List.mem_map] at h
  obtain ⟨w, hw, rfl⟩ := h
  exact ⟨w, hw, rfl, rfl⟩

/-- Witness for the amended C2 at the concrete two-Assessor database. -/
theorem c2_gaps_is_four_minus_min_total_witness :
    ∃ w ∈ twoAssessorDB.workbenches,
      coverageRowFor twoAssessorDB.rows ⟨1, "Fraud", "fraud queue"⟩
        = coverageRowFor twoAssessorDB.rows w ∧
      (coverageRowFor twoAssessorDB.rows ⟨1, "Fraud", "fraud queue"⟩).gaps
        = 4 - min (activeAssignmentCount twoAssessorDB.rows w.id) 4 :=
  c2_gaps_is_four_minus_min_total twoAssessorDB _
    (by exact List.mem_singleton_self _)

/-- C8: adding one active assignment for a previously vacant role of a
workbench never decreases that workbench's reported coverage
percentage. -/
theorem c8_fill_vacant_role_monotone (db : RolesDB) (w : Workbench) (r : RoleRow)
    (hw : w ∈ db.workbenches)
    (hwb : r.workbench_id = w.id) (hact : r.is_active = true)
    (hvac : ∀ q ∈ activeRowsFor db.rows w.id, q.role ≠ r.role) :
    ∃ rowBefore ∈ (get_workbench_coverage_report db).workbenches,
    ∃ rowAfter ∈
        (get_workbench_coverage_report ⟨db.workbenches, db.rows ++ [r]⟩).workbenches,
      rowBefore = coverageRowFor db.rows w ∧
      rowAfter = coverageRowFor (db.rows ++ [r]) w ∧
      rowBefore.coverage_percentage ≤ rowAfter.coverage_percentage := by
  have hcount : activeAssignmentCount (db.rows ++ [r]) w.id
      = activeAssignmentCount db.rows w.id + 1 := by
    simp [activeAssignmentCount, activeRowsFor, List.filter_append, hwb, hact]
  refine ⟨_, List.mem_map_of_mem _ hw, _, List.mem_map_of_mem _ hw, rfl, rfl, ?_⟩
  simp only [coverageRowFor, hcount]
  have hle : (activeAssignmentCount db.rows w.id : ℚ)
      ≤ ((activeAssignmentCount db.rows w.id + 1 : Nat) : ℚ) := by
    push_cast; linarith
  gcongr

/-- Witness for C8: fill the vacant Reviewer role of workbench 1 of the
two-Assessor database. -/
theorem c8_fill_vacant_role_monotone_witness :
    ∃ rowBefore ∈ (get_workbench_coverage_report twoAssessorDB).workbenches,
    ∃ rowAfter ∈
        (get_workbench_coverage_report
          ⟨twoAssessorDB.workbenches,
            twoAssessorDB.rows ++ [⟨1, "carol", "Reviewer", 2, "system", true⟩]⟩).workbenches,
      rowBefore = coverageRowFor twoAssessorDB.rows ⟨1, "Fraud", "fraud queue"⟩ ∧
      rowAfter = coverageRowFor
        (twoAssessorDB.rows ++ [⟨1, "carol", "Reviewer", 2, "system", true⟩])
        ⟨1, "Fraud", "fraud queue"⟩ ∧
      rowBefore.coverage_percentage ≤ rowAfter.coverage_percentage :=
  c8_fill_vacant_role_monotone twoAssessorDB ⟨1, "Fraud", "fraud queue"⟩
    ⟨1, "carol", "Reviewer", 2, "system", true⟩
    (by decide) (by decide) (by decide) (by decide)

/-- One entry of a role's agent list in the assignments query result. -/
structure AssignInfo where
  agent : String
  assigned_at : Nat
  assigned_by : String
deriving Repr, DecidableEq

/-- The dictionary entry built from one assignment row. -/
def infoOfRow (r : RoleRow) : AssignInfo :=
  ⟨r.agent, r.assigned_at, r.assigned_by⟩

/-- The `ORDER BY role, agent` of the assignments query (lexicographic on
the two strings). -/
def roleAgentLE (a b : RoleRow) : Prop :=
  a.role < b.role ∨ (a.role = b.role ∧ a.agent ≤ b.agent)

instance : DecidableRel roleAgentLE := fun a b => by
  unfold roleAgentLE; infer_instance

/-- `roles[role].append(entry)` on the Python dict: append one entry to
the value of the first matching key of the association list, `none` when
the key is absent (Python raises KeyError there). -/
def appendToRole : List (String × List AssignInfo) → String → AssignInfo →
    Option (List (String × List AssignInfo))
  | [], _, _ => none
  | (k, v) :: rest, ρ, i =>
    if k = ρ then some ((k, v ++ [i]) :: rest)
    else (appendToRole rest ρ i).map (fun m => (k, v) :: m)

/-- The grouping loop of `get_workbench_role_assignments`
(`for agent, role, ... in assignments: roles[role].append({...})`),
failing at the first row whose role is not a key of the dict. -/
def groupRows : List (String × List AssignInfo) → List RoleRow →
    Except String (List (String × List AssignInfo))
  | m, [] => .ok m
  | m, r :: rs =>
    match appendToRole m r.role (infoOfRow r) with
    | some m1 => groupRows m1 rs
    | none => .error "KeyError"

/-- The value returned by `get_workbench_role_assignments` for an
existing workbench. -/
structure WbAssignments where
  workbench_id : Int
  workbench_name : String
  description : String
  roles : List (String × List AssignInfo)
  total_assignments : Nat
  missing_roles : List String
deriving Repr, DecidableEq

/-- `WorkbenchRoleManager.get_workbench_role_assignments`: `.ok none`
when the workbench id is unknown (Python returns None); `.error` when an
active row carries a role outside the initialised dict (Python
KeyError); otherwise the grouped report.  The SQL `ORDER BY role, agent`
is modelled by insertion sort on the active rows. -/
def get_workbench_role_assignments (db : RolesDB) (workbench_id : Int) :
    Except String (Option WbAssignments) :=
  match db.workbenches.find? (fun w => w.id == workbench_id) with
  | none => .ok none
  | some wb =>
    let assignments := List.insertionSort roleAgentLE (activeRowsFor db.rows workbench_id)
    let roles0 := STANDARD_ROLES.map (fun ρ => (ρ, ([] : List AssignInfo)))
    match groupRows roles0 assignments with
    | .error e => .error e
    | .ok roles =>
      .ok (some
        { workbench_id := workbench_id
          workbench_name := wb.name
          description := wb.description
          roles := roles
          total_assignments := assignments.length
          missing_roles :=
            STANDARD_ROLES.filter (fun ρ => ((roles.lookup ρ).getD []).isEmpty) })

/-- Modelled from the spec: the DDL of the `workbench_roles` table is
missing from the sources (`assign_workbench_role` INSERTs into it and
catches `sqlite3.IntegrityError`; the SQLModel table in `models.py` is a
different table, `workbenchroles`).  Per the spec the table enforces
"at most one *active* assignment per (workbench_id, agent, role) triple"
through a uniqueness constraint, so an INSERT duplicating an active
triple raises IntegrityError and any other INSERT succeeds. -/
def insertViolatesActiveUnique (rows : List RoleRow) (workbench_id : Int)
    (agent role : String) : Bool :=
  rows.any (fun r =>
    r.workbench_id == workbench_id && r.agent == agent && r.role == role && r.is_active)

/-- `WorkbenchRoleManager.assign_workbench_role`: ValueError for a
non-standard role; `false` with the table unchanged when the INSERT
raises IntegrityError; otherwise `true` with the new active row
appended.  `now` stands for the database-assigned `assigned_at`
timestamp. -/
def assign_workbench_role (db : RolesDB) (agent : String) (workbench_id : Int)
    (role : String) (assigned_by : String) (now : Nat) :
    Except String (Bool × RolesDB) :=
  if role ∉ STANDARD_ROLES then
    .error "Role must be one of: Assessor, Reviewer, Team Lead, Viewer"
  else if insertViolatesActiveUnique db.rows workbench_id agent role then
    .ok (false, db)
  else
    .ok (true,
      { db with rows := db.rows ++ [⟨workbench_id, agent, role, now, assigned_by, true⟩] })

/-- `WorkbenchRoleManager.remove_workbench_role`: soft-delete (set
`is_active = 0` on) every active row of the (workbench, agent, role)
triple; the returned Bool is `cursor.rowcount > 0`, i.e. whether any row
matched. -/
def remove_workbench_role (db : RolesDB) (agent : String) (workbench_id : Int)
    (role : String) : Bool × RolesDB :=
  let hit : RoleRow → Bool := fun r =>
    r.workbench_id == workbench_id && r.agent == agent && r.role == role && r.is_active
  (db.rows.any hit,
   { db with
      rows := db.rows.map (fun r => if hit r then { r with is_active := false } else r) })

theorem appendToRole_of_mem (m : List (String × List AssignInfo)) (ρ : String)
    (i : AssignInfo) (hρ : ρ ∈ m.map Prod.fst) :
    ∃ m1, appendToRole m ρ i = some m1 ∧ m1.map Prod.fst = m.map Prod.fst ∧
      ∀ σ, m1.lookup σ =
        if σ = ρ then (m.lookup σ).map (fun v => v ++ [i]) else m.lookup σ := by
  induction m with
  | nil => simp at hρ
  | cons kv rest ih =>
    obtain ⟨k, v⟩ := kv
    by_cases hk : k = ρ
    · subst hk
      refine ⟨(k, v ++ [i]) :: rest, by simp [appendToRole], by simp, ?_⟩
      intro σ
      cases hbe : σ == k with
      | true =>
        have hσ : σ = k := eq_of_beq hbe
        simp [List.lookup, hσ]
      | false =>
        have hne : ¬ σ = k := by
          intro hcon; rw [hcon] at hbe; simp at hbe
        simp [List.lookup, hbe, hne]
    · have hρ' : ρ ∈ rest.map Prod.fst := by
        simp only [List.map_cons, List.mem_cons] at hρ
        rcases hρ with h1 | h1
        · exact absurd h1.symm hk
        · exact h1
      obtain ⟨m1, hm1, hkeys, hlook⟩ := ih hρ'
      refine ⟨(k, v) :: m1, ?_, by simp [hkeys], ?_⟩
      · simp [appendToRole, hk, hm1]
      · intro σ
        cases hbe : σ == k with
        | true =>
          have hσ : σ = k := eq_of_beq hbe
          simp [List.lookup, hσ, hk]
        | false =>
          simp [List.lookup, hbe, hlook σ]

theorem groupRows_ok (rs : List RoleRow) :
    ∀ m, (∀ r ∈ rs, r.role ∈ m.map Prod.fst) →
    ∃ m2, groupRows m rs = .ok m2 ∧ m2.map Prod.fst = m.map Prod.fst ∧
      ∀ σ, m2.lookup σ =
        (m.lookup σ).map
          (fun v => v ++ ((rs.filter (fun r => r.role == σ)).map infoOfRow)) := by
  induction rs with
  | nil =>
    intro m _
    exact ⟨m, rfl, rfl, fun σ => by cases h : m.lookup σ <;> simp [h]⟩
  | cons r rs ih =>
    intro m hall
    have hr : r.role ∈ m.map Prod.fst := hall r (by simp)
    obtain ⟨m1, hm1, hkeys, hlook⟩ := appendToRole_of_mem m r.role (infoOfRow r) hr
    have hall' : ∀ q ∈ rs, q.role ∈ m1.map Prod.fst := by
      intro q hq; rw [hkeys]; exact hall q (by simp [hq])
    obtain ⟨m2, hm2, hkeys2, hlook2⟩ := ih m1 hall'
    refine ⟨m2, ?_, by rw [hkeys2, hkeys], ?_⟩
    · simp [groupRows, hm1, hm2]
    · intro σ
      rw [hlook2 σ, hlook σ]
      by_cases hσ : σ = r.role
      · subst hσ
        rw [if_pos rfl]
        cases h : m.lookup r.role with
        | none => simp [h]
        | some v => simp [h, List.filter_cons, List.append_assoc]
      · rw [if_neg hσ]
        have hne : (r.role == σ) = false := by
          cases hbe : r.role == σ
          · rfl
          · exact absurd (eq_of_beq hbe) (fun hcon => hσ hcon.symm)
        cases h : m.lookup σ with
        | none => simp
        | some v => simp [List.filter_cons, hne]

theorem lookup_roles0 (L : List String) (ρ : String) (h : ρ ∈ L) :
    (L.map (fun k => (k, ([] : List AssignInfo)))).lookup ρ = some [] := by
  induction L with
  | nil => simp at h
  | cons k L ih =>
    cases hbe : ρ == k with
    | true => simp [List.lookup, hbe]
    | false =>
      have hne : ¬ ρ = k := by
        intro hcon; rw [hcon] at hbe; simp at hbe
      have hL : ρ ∈ L := by
        simp only [List.mem_cons] at h
        rcases h with h | h
        · exact absurd h hne
        · exact h
      simp [List.lookup, hbe, ih hL]

/-- Characterisation of `get_workbench_role_assignments` for an existing
workbench all of whose active assignments carry standard roles: the
query succeeds, the `roles` dict has exactly the four standard roles as
keys, each role's list holds (a permutation of) the entries of the
active rows with that role, `total_assignments` counts the active rows,
and `missing_roles` lists the standard roles with no active row. -/
theorem get_workbench_role_assignments_spec (db : RolesDB) (wid : Int) (wb : Workbench)
    (hfind : db.workbenches.find? (fun w => w.id == wid) = some wb)
    (hstd : ∀ r ∈ activeRowsFor db.rows wid, r.role ∈ STANDARD_ROLES) :
    ∃ rep, get_workbench_role_assignments db wid = .ok (some rep) ∧
      rep.workbench_id = wid ∧
      rep.workbench_name = wb.name ∧
      rep.description = wb.description ∧
      rep.roles.map Prod.fst = STANDARD_ROLES ∧
      rep.total_assignments = activeAssignmentCount db.rows wid ∧
      (∀ ρ ∈ STANDARD_ROLES,
        ∃ l, rep.roles.lookup ρ = some l ∧
          l.Perm (((activeRowsFor db.rows wid).filter (fun r => r.role == ρ)).map infoOfRow)) ∧
      rep.missing_roles = STANDARD_ROLES.filter
        (fun ρ => !((activeRowsFor db.rows wid).any (fun r => r.role == ρ))) := by
  have hperm : (List.insertionSort roleAgentLE (activeRowsFor db.rows wid)).Perm
      (activeRowsFor db.rows wid) := List.perm_insertionSort _ _
  have hall : ∀ r ∈ List.insertionSort roleAgentLE (activeRowsFor db.rows wid),
      r.role ∈ (STANDARD_ROLES.map (fun ρ => (ρ, ([] : List AssignInfo)))).map Prod.fst := by
    intro r hrmem
    have : r.role ∈ STANDARD_ROLES := hstd r (hperm.mem_iff.mp hrmem)
    simpa using this
  obtain ⟨m2, hm2, hkeys2, hlook2⟩ :=
    groupRows_ok (List.insertionSort roleAgentLE (activeRowsFor db.rows wid))
      (STANDARD_ROLES.map (fun ρ => (ρ, ([] : List AssignInfo)))) hall
  have hlookρ : ∀ ρ ∈ STANDARD_ROLES, m2.lookup ρ
      = some (((List.insertionSort roleAgentLE (activeRowsFor db.rows wid)).filter
          (fun r => r.role == ρ)).map infoOfRow) := by
    intro ρ hρ
    rw [hlook2 ρ, lookup_roles0 _ _ hρ]
    simp
  refine ⟨{ workbench_id := wid
            workbench_name := wb.name
            description := wb.description
            roles := m2
            total_assignments :=
              (List.insertionSort roleAgentLE (activeRowsFor db.rows wid)).length
            missing_roles :=
              STANDARD_ROLES.filter (fun ρ => ((m2.lookup ρ).getD []).isEmpty) },
    ?_, rfl, rfl, rfl, ?_, ?_, ?_, ?_⟩
  · simp only [get_workbench_role_assignments, hfind, hm2]
  · rw [hkeys2]; rfl
  · exact hperm.length_eq
  · intro ρ hρ
    exact ⟨_, hlookρ ρ hρ, (hperm.filter _).map infoOfRow⟩
  · apply List.filter_congr
    intro ρ hρ
    rw [hlookρ ρ hρ]
    have hiff : ((List.insertionSort roleAgentLE (activeRowsFor db.rows wid)).filter
        (fun r => r.role == ρ)) = [] ↔
        ((activeRowsFor db.rows wid).filter (fun r => r.role == ρ)) = [] := by
      rw [← List.length_eq_zero, ← List.length_eq_zero,
        (hperm.filter (fun r => r.role == ρ)).length_eq]
    rw [Bool.eq_iff_iff]
    simp only [Option.getD_some, List.isEmpty_iff, List.map_eq_nil_iff,
      Bool.not_eq_true', List.any_eq_false]
    rw [hiff, List.filter_eq_nil_iff]

/-- C10: for an existing workbench whose active assignments all carry
standard roles, `get_workbench_role_assignments` completes without error
(the KeyError branch of the grouping loop is unreachable), its roles
mapping has exactly the four standard roles as keys, its
total_assignments equals the number of active assignments, and its
missing_roles lists exactly the standard roles with no active
assignment. -/
theorem c10_assignments_query_safe (db : RolesDB) (wid : Int) (wb : Workbench)
    (hfind : db.workbenches.find? (fun w => w.id == wid) = some wb)
    (hstd : ∀ r ∈ activeRowsFor db.rows wid, r.role ∈ STANDARD_ROLES) :
    ∃ rep, get_workbench_role_assignments db wid = .ok (some rep) ∧
      rep.roles.map Prod.fst = STANDARD_ROLES ∧
      rep.total_assignments = activeAssignmentCount db.rows wid ∧
      rep.missing_roles = STANDARD_ROLES.filter
        (fun ρ => !((activeRowsFor db.rows wid).any (fun r => r.role == ρ))) := by
  obtain ⟨rep, h1, _, _, _, h5, h6, _, h8⟩ :=
    get_workbench_role_assignments_spec db wid wb hfind hstd
  exact ⟨rep, h1, h5, h6, h8⟩

/-- Witness for C10 at the two-Assessor database. -/
theorem c10_assignments_query_safe_witness :
    ∃ rep, get_workbench_role_assignments twoAssessorDB 1 = .ok (some rep) ∧
      rep.roles.map Prod.fst = STANDARD_ROLES ∧
      rep.total_assignments = activeAssignmentCount twoAssessorDB.rows 1 ∧
      rep.missing_roles = STANDARD_ROLES.filter
        (fun ρ => !((activeRowsFor twoAssessorDB.rows 1).any (fun r => r.role == ρ))) :=
  c10_assignments_query_safe twoAssessorDB 1 ⟨1, "Fraud", "fraud queue"⟩
    (by decide) (by decide)

/-- C3: with no pre-existing active assignment of the (workbench, agent,
role) triple, the first `assign_workbench_role` call returns True and
appends the one active row; the identical call on the resulting state
returns False and leaves the table unchanged, so exactly one active
assignment of the triple exists afterwards. -/
theorem c3_assign_then_duplicate (db : RolesDB) (agent : String) (wid : Int)
    (role assigned_by : String) (now now2 : Nat)
    (hrole : role ∈ STANDARD_ROLES)
    (hnone : insertViolatesActiveUnique db.rows wid agent role = false) :
    ∃ db1,
      assign_workbench_role db agent wid role assigned_by now = .ok (true, db1) ∧
      db1.rows = db.rows ++ [⟨wid, agent, role, now, assigned_by, true⟩] ∧
      assign_workbench_role db1 agent wid role assigned_by now2 = .ok (false, db1) ∧
      (db1.rows.filter (fun r =>
          r.workbench_id == wid && r.agent == agent && r.role == role &&
            r.is_active)).length = 1 := by
  refine ⟨{ db with rows := db.rows ++ [⟨wid, agent, role, now, assigned_by, true⟩] },
    ?_, rfl, ?_, ?_⟩
  · simp [assign_workbench_role, hrole, hnone]
  · simp [assign_workbench_role, hrole, insertViolatesActiveUnique, List.any_append]
  · have h0 : db.rows.filter (fun r =>
        r.workbench_id == wid && r.agent == agent && r.role == role && r.is_active) = [] := by
      rw [List.filter_eq_nil_iff]
      exact List.any_eq_false.mp hnone
    rw [List.filter_append, h0]
    simp

/-- Witness for C3: first assignment of Assessor to ashish in workbench 1
on the empty database. -/
theorem c3_assign_then_duplicate_witness :
    ∃ db1,
      assign_workbench_role ⟨[], []⟩ "ashish" 1 "Assessor" "system" 0 = .ok (true, db1) ∧
      db1.rows = [] ++ [⟨1, "ashish", "Assessor", 0, "system", true⟩] ∧
      assign_workbench_role db1 "ashish" 1 "Assessor" "system" 1 = .ok (false, db1) ∧
      (db1.rows.filter (fun r =>
          r.workbench_id == 1 && r.agent == "ashish" && r.role == "Assessor" &&
            r.is_active)).length = 1 :=
  c3_assign_then_duplicate ⟨[], []⟩ "ashish" 1 "Assessor" "system" 0 1
    (by decide) (by decide)

/-- After `remove_workbench_role`, every remaining active row of the
workbench was already active before the removal, and none of them
carries the removed (agent, role) pair. -/
theorem activeRows_after_remove (db1 : RolesDB) (agent : String) (wid : Int)
    (role : String) :
    ∀ r ∈ activeRowsFor (remove_workbench_role db1 agent wid role).2.rows wid,
      r ∈ activeRowsFor db1.rows wid ∧ (r.agent == agent && r.role == role) = false := by
  intro r hr
  simp only [remove_workbench_role, activeRowsFor, List.mem_filter, List.mem_map] at hr
  obtain ⟨⟨q, hq, hqr⟩, hact⟩ := hr
  by_cases hhit :
      (q.workbench_id == wid && q.agent == agent && q.role == role && q.is_active) = true
  · rw [if_pos hhit] at hqr
    subst hqr
    simp at hact
  · rw [if_neg hhit] at hqr
    subst hqr
    refine ⟨List.mem_filter.mpr ⟨hq, hact⟩, ?_⟩
    cases hb : (q.agent == agent && q.role == role)
    · rfl
    · exfalso
      apply hhit
      simp only [Bool.and_eq_true] at hact hb ⊢
      exact ⟨⟨⟨hact.1, hb.1⟩, hb.2⟩, hact.2⟩

/-- C4: after a successful assignment of a role to an agent in an
existing workbench (whose active assignments carry standard roles), the
assignments query lists that agent under that role exactly once; after
`remove_workbench_role` soft-deletes the assignment, the agent no longer
appears under that role in the active list. -/
theorem c4_assign_query_remove_round_trip (db : RolesDB) (agent : String) (wid : Int)
    (role assigned_by : String) (now : Nat) (wb : Workbench) (db1 : RolesDB)
    (hfind : db.workbenches.find? (fun w => w.id == wid) = some wb)
    (hstd : ∀ r ∈ activeRowsFor db.rows wid, r.role ∈ STANDARD_ROLES)
    (hassign : assign_workbench_role db agent wid role assigned_by now = .ok (true, db1)) :
    (∃ rep, get_workbench_role_assignments db1 wid = .ok (some rep) ∧
      ∃ l, rep.roles.lookup role = some l ∧
        (l.filter (fun i => i.agent == agent)).length = 1) ∧
    (∃ rep2, get_workbench_role_assignments
        (remove_workbench_role db1 agent wid role).2 wid = .ok (some rep2) ∧
      ∃ l2, rep2.roles.lookup role = some l2 ∧
        (l2.filter (fun i => i.agent == agent)).length = 0) := by
  have hrole : role ∈ STANDARD_ROLES := by
    by_contra hcon
    simp [assign_workbench_role, hcon] at hassign
  have hnone : insertViolatesActiveUnique db.rows wid agent role = false := by
    cases hb : insertViolatesActiveUnique db.rows wid agent role
    · rfl
    · simp [assign_workbench_role, hrole, hb] at hassign
  have hdb1 : db1
      = { db with rows := db.rows ++ [⟨wid, agent, role, now, assigned_by, true⟩] } := by
    simp [assign_workbench_role, hrole, hnone] at hassign
    exact hassign.symm
  subst hdb1
  have hactive1 : activeRowsFor
        (db.rows ++ [(⟨wid, agent, role, now, assigned_by, true⟩ : RoleRow)]) wid
      = activeRowsFor db.rows wid ++ [⟨wid, agent, role, now, assigned_by, true⟩] := by
    simp [activeRowsFor, List.filter_append]
  have hstd1 : ∀ r ∈ activeRowsFor
      ({ db with rows :=
          db.rows ++ [(⟨wid, agent, role, now, assigned_by, true⟩ : RoleRow)] }).rows wid,
      r.role ∈ STANDARD_ROLES := by
    intro r hr
    dsimp only at hr
    rw [hactive1] at hr
    rcases List.mem_append.mp hr with h | h
    · exact hstd r h
    · simp only [List.mem_singleton] at h
      subst h
      exact hrole
  have hzero : ∀ q ∈ activeRowsFor db.rows wid,
      ¬ ((q.agent == agent && q.role == role) = true) := by
    intro q hq hpair
    have hq' := List.mem_filter.mp hq
    have hfalse := List.any_eq_false.mp hnone q hq'.1
    apply hfalse
    simp only [Bool.and_eq_true] at hq' hpair ⊢
    exact ⟨⟨⟨hq'.2.1, hpair.1⟩, hpair.2⟩, hq'.2.2⟩
  constructor
  · obtain ⟨rep, hq, _, _, _, _, _, hlookAll, _⟩ :=
      get_workbench_role_assignments_spec
        { db with rows := db.rows ++ [⟨wid, agent, role, now, assigned_by, true⟩] }
        wid wb hfind hstd1
    obtain ⟨l, hl, hlperm⟩ := hlookAll role hrole
    refine ⟨rep, hq, l, hl, ?_⟩
    rw [← List.countP_eq_length_filter, hlperm.countP_eq, List.countP_map]
    dsimp only
    rw [hactive1, List.filter_append, List.countP_append]
    have hc0 : ((activeRowsFor db.rows wid).filter
        (fun r => r.role == role)).countP
          (fun r => ((fun i => i.agent == agent) ∘ infoOfRow) r) = 0 := by
      rw [List.countP_eq_zero]
      intro q hq
      have hmem := List.mem_filter.mp hq
      intro hagent
      apply hzero q hmem.1
      simp only [Function.comp, infoOfRow] at hagent
      simp only [Bool.and_eq_true]
      exact ⟨by simpa using hagent, by simpa using hmem.2⟩
    rw [hc0]
    simp [Function.comp, infoOfRow]
  · obtain ⟨rep2, hq2, _, _, _, _, _, hlookAll2, _⟩ :=
      get_workbench_role_assignments_spec
        (remove_workbench_role
          { db with rows := db.rows ++ [⟨wid, agent, role, now, assigned_by, true⟩] }
          agent wid role).2
        wid wb hfind
        (by
          intro r hr
          exact hstd1 r (activeRows_after_remove _ agent wid role r hr).1)
    obtain ⟨l2, hl2, hlperm2⟩ := hlookAll2 role hrole
    refine ⟨rep2, hq2, l2, hl2, ?_⟩
    rw [← List.countP_eq_length_filter, hlperm2.countP_eq, List.countP_map]
    rw [List.countP_eq_zero]
    intro q hq
    have hmem := List.mem_filter.mp hq
    have hpair := (activeRows_after_remove _ agent wid role q hmem.1).2
    intro hagent
    simp only [Function.comp, infoOfRow] at hagent
    have hroleq : (q.role == role) = true := hmem.2
    rw [Bool.and_eq_false_iff] at hpair
    rcases hpair with h | h
    · rw [h] at hagent
      exact absurd hagent (by simp)
    · rw [h] at hroleq
      exact absurd hroleq (by simp)

/-- Witness for C4: assign Reviewer to dave in workbench 1 of the
two-Assessor database, query, remove, query again. -/
theorem c4_assign_query_remove_round_trip_witness :
    (∃ rep, get_workbench_role_assignments
        { workbenches := [⟨1, "Fraud", "fraud queue"⟩],
          rows := [⟨1, "alice", "Assessor", 0, "system", true⟩,
                   ⟨1, "bob", "Assessor", 1, "system", true⟩,
                   ⟨1, "dave", "Reviewer", 5, "system", true⟩] } 1 = .ok (some rep) ∧
      ∃ l, rep.roles.lookup "Reviewer" = some l ∧
        (l.filter (fun i => i.agent == "dave")).length = 1) ∧
    (∃ rep2, get_workbench_role_assignments
        (remove_workbench_role
          { workbenches := [⟨1, "Fraud", "fraud queue"⟩],
            rows := [⟨1, "alice", "Assessor", 0, "system", true⟩,
                     ⟨1, "bob", "Assessor", 1, "system", true⟩,
                     ⟨1, "dave", "Reviewer", 5, "system", true⟩] } "dave" 1 "Reviewer").2 1
        = .ok (some rep2) ∧
      ∃ l2, rep2.roles.lookup "Reviewer" = some l2 ∧
        (l2.filter (fun i => i.agent == "dave")).length = 0) :=
  c4_assign_query_remove_round_trip twoAssessorDB "dave" 1 "Reviewer" "system" 5
    ⟨1, "Fraud", "fraud queue"⟩
    { workbenches := [⟨1, "Fraud", "fraud queue"⟩],
      rows := [⟨1, "alice", "Assessor", 0, "system", true⟩,
               ⟨1, "bob", "Assessor", 1, "system", true⟩,
               ⟨1, "dave", "Reviewer", 5, "system", true⟩] }
    (by decide) (by decide) rfl

/-- A JSON-RPC error object `{code, message}`. -/
structure RpcError where
  code : Int
  message : String
deriving Repr, DecidableEq

/-- The `JSONRPCRequest` model of `rpc_server.py`; the params and id
payloads are abstracted by type parameters (the dispatcher never
inspects them). -/
structure JSONRPCRequest (π ι : Type) where
  jsonrpc : String
  method : String
  params : π
  id : Option ι

/-- The `JSONRPCResponse` model of `rpc_server.py`: result and error
both default to null. -/
structure JSONRPCResponse (α ι : Type) where
  jsonrpc : String := "2.0"
  result : Option α := none
  error : Option RpcError := none
  id : Option ι := none

/-- The twelve RPC handler functions of `rpc_server.py`, abstracted as
functions from the params payload to either a result value or a raised
exception's text. -/
structure RpcHandlers (π α : Type) where
  get_agent_task_count : π → Except String α
  list_recent_tasks : π → Except String α
  average_completion_time : π → Except String α
  list_tags : π → Except String α
  assign_task : π → Except String α
  update_task_status : π → Except String α
  list_agents : π → Except String α
  get_agent_info : π → Except String α
  get_agent_stats : π → Except String α
  create_agent : π → Except String α
  assign_role : π → Except String α
  get_agent_roles : π → Except String α

/-- The method names dispatched by the if/elif chain of `handle_rpc`. -/
def dispatchedMethods : List String :=
  ["get_agent_task_count", "list_recent_tasks", "average_completion_time",
   "list_tags", "assign_task", "update_task_status", "list_agents",
   "get_agent_info", "get_agent_stats", "create_agent", "assign_role",
   "get_agent_roles"]

/-- The handler selected by the if/elif chain of `handle_rpc` for a
method name, `none` for an unknown method. -/
def lookupHandler {π α : Type} (h : RpcHandlers π α) (method : String) :
    Option (π → Except String α) :=
  if method = "get_agent_task_count" then some h.get_agent_task_count
  else if method = "list_recent_tasks" then some h.list_recent_tasks
  else if method = "average_completion_time" then some h.average_completion_time
  else if method = "list_tags" then some h.list_tags
  else if method = "assign_task" then some h.assign_task
  else if method = "update_task_status" then some h.update_task_status
  else if method = "list_agents" then some h.list_agents
  else if method = "get_agent_info" then some h.get_agent_info
  else if method = "get_agent_stats" then some h.get_agent_stats
  else if method = "create_agent" then some h.create_agent
  else if method = "assign_role" then some h.assign_role
  else if method = "get_agent_roles" then some h.get_agent_roles
  else none

/-- `handle_rpc` of `rpc_server.py`: a response pre-filled with the
request id; an unknown method sets error −32601 "Method not found" and
returns (result stays null); a known method's handler either supplies
the result or raises, and any raised exception is caught and translated
to error −32000 with the exception text (result stays null). -/
def handle_rpc {π α ι : Type} (h : RpcHandlers π α) (req : JSONRPCRequest π ι) :
    JSONRPCResponse α ι :=
  match lookupHandler h req.method with
  | none => { id := req.id, error := some ⟨-32601, "Method not found"⟩ }
  | some f =>
    match f req.params with
    | .ok v => { id := req.id, result := some v }
    | .error e => { id := req.id, error := some ⟨-32000, e⟩ }

/-- A concrete handler environment where every handler returns 0. -/
def okHandlers : RpcHandlers Unit Nat :=
  { get_agent_task_count := fun _ => .ok 0, list_recent_tasks := fun _ => .ok 0,
    average_completion_time := fun _ => .ok 0, list_tags := fun _ => .ok 0,
    assign_task := fun _ => .ok 0, update_task_status := fun _ => .ok 0,
    list_agents := fun _ => .ok 0, get_agent_info := fun _ => .ok 0,
    get_agent_stats := fun _ => .ok 0, create_agent := fun _ => .ok 0,
    assign_role := fun _ => .ok 0, get_agent_roles := fun _ => .ok 0 }

/-- A concrete handler environment where every handler raises "boom". -/
def boomHandlers : RpcHandlers Unit Nat :=
  { get_agent_task_count := fun _ => .error "boom", list_recent_tasks := fun _ => .error "boom",
    average_completion_time := fun _ => .error "boom", list_tags := fun _ => .error "boom",
    assign_task := fun _ => .error "boom", update_task_status := fun _ => .error "boom",
    list_agents := fun _ => .error "boom", get_agent_info := fun _ => .error "boom",
    get_agent_stats := fun _ => .error "boom", create_agent := fun _ => .error "boom",
    assign_role := fun _ => .error "boom", get_agent_roles := fun _ => .error "boom" }

theorem lookupHandler_eq_none {π α : Type} (h : RpcHandlers π α) (method : String)
    (hm : method ∉ dispatchedMethods) : lookupHandler h method = none := by
  simp only [dispatchedMethods, List.mem_cons, List.mem_singleton, not_or] at hm
  obtain ⟨h1, h2, h3, h4, h5, h6, h7, h8, h9, h10, h11, h12⟩ := hm
  simp [lookupHandler, h1, h2, h3, h4, h5, h6, h7, h8, h9, h10, h11,
    by simpa using h12]

/-- C5: a request whose method is not one of the twelve dispatched
method names gets error code −32601 with message "Method not found", a
null result, and its id echoed. -/
theorem c5_unknown_method (π α ι : Type) (h : RpcHandlers π α)
    (req : JSONRPCRequest π ι) (hm : req.method ∉ dispatchedMethods) :
    (handle_rpc h req).error = some ⟨-32601, "Method not found"⟩ ∧
    (handle_rpc h req).result = none ∧
    (handle_rpc h req).id = req.id := by
  rw [handle_rpc, lookupHandler_eq_none h req.method hm]
  exact ⟨rfl, rfl, rfl⟩

/-- Witness for C5 at a concrete unknown method. -/
theorem c5_unknown_method_witness :
    (handle_rpc okHandlers
      (⟨"2.0", "frobnicate", (), some 7⟩ : JSONRPCRequest Unit Nat)).error
        = some ⟨-32601, "Method not found"⟩ ∧
    (handle_rpc okHandlers
      (⟨"2.0", "frobnicate", (), some 7⟩ : JSONRPCRequest Unit Nat)).result = none ∧
    (handle_rpc okHandlers
      (⟨"2.0", "frobnicate", (), some 7⟩ : JSONRPCRequest Unit Nat)).id = some 7 :=
  c5_unknown_method Unit Nat Nat okHandlers _ (by decide)

/-- C6: a request dispatching to a known method whose handler raises an
exception gets error code −32000 with the exception text as message, a
null result, and its id echoed. -/
theorem c6_handler_exception (π α ι : Type) (h : RpcHandlers π α)
    (req : JSONRPCRequest π ι) (f : π → Except String α) (msg : String)
    (hf : lookupHandler h req.method = some f)
    (herr : f req.params = .error msg) :
    (handle_rpc h req).error = some ⟨-32000, msg⟩ ∧
    (handle_rpc h req).result = none ∧
    (handle_rpc h req).id = req.id := by
  simp [handle_rpc, hf, herr]

/-- Witness for C6: the create_agent handler raising an exception. -/
theorem c6_handler_exception_witness :
    (handle_rpc boomHandlers
      (⟨"2.0", "create_agent", (), some 3⟩ : JSONRPCRequest Unit Nat)).error
        = some ⟨-32000, "boom"⟩ ∧
    (handle_rpc boomHandlers
      (⟨"2.0", "create_agent", (), some 3⟩ : JSONRPCRequest Unit Nat)).result = none ∧
    (handle_rpc boomHandlers
      (⟨"2.0", "create_agent", (), some 3⟩ : JSONRPCRequest Unit Nat)).id = some 3 :=
  c6_handler_exception Unit Nat Nat boomHandlers _
    (fun _ => .error "boom") "boom" rfl rfl

/-- A row of the `usertaskinfo` table as used by `create_agent`
(`models.py` UserTaskInfo; the database-assigned primary key and the
unused process_instance_id are never read by `create_agent` and are
omitted).  Timestamps are abstract naturals. -/
structure UserTaskInfo where
  agent : String
  task_id : Int
  status : String
  created_at : Nat
  completed_at : Option Nat
  workbench_id : Option Int
deriving Repr, DecidableEq

/-- The result dict of `rpc_server.create_agent`: the fields common to
both branches. -/
structure CreateAgentResult where
  agent : String
  status : String
  message : String
deriving Repr, DecidableEq

/-- `rpc_server.create_agent`: if any UserTaskInfo row with this agent
exists (SELECT ... LIMIT 1), report "already_exists" and change
nothing; otherwise insert the one sentinel row (task_id −1, status
"agent_created", completed immediately, no workbench) and report
"created".  `now` stands for `datetime.utcnow()`. -/
def create_agent (tasks : List UserTaskInfo) (agent : String) (now : Nat) :
    CreateAgentResult × List UserTaskInfo :=
  match tasks.find? (fun t => t.agent == agent) with
  | some _ =>
    ({ agent := agent, status := "already_exists",
       message := "Agent " ++ agent ++ " already exists with existing tasks" }, tasks)
  | none =>
    ({ agent := agent, status := "created",
       message := "Agent " ++ agent ++ " created successfully without tasks" },
     tasks ++ [{ agent := agent, task_id := -1, status := "agent_created",
                 created_at := now, completed_at := some now, workbench_id := none }])

/-- C9: for an agent with no UserTaskInfo row, create_agent inserts
exactly one row, with task_id −1 and status "agent_created", and
returns status "created"; for an agent with at least one row it returns
status "already_exists" and leaves the table unchanged. -/
theorem c9_create_agent_sentinel (tasks : List UserTaskInfo) (agent : String) (now : Nat) :
    ((∀ t ∈ tasks, t.agent ≠ agent) →
      (create_agent tasks agent now).1.status = "created" ∧
      (create_agent tasks agent now).2
        = tasks ++ [{ agent := agent, task_id := -1, status := "agent_created",
                      created_at := now, completed_at := some now,
                      workbench_id := none }]) ∧
    ((∃ t ∈ tasks, t.agent = agent) →
      (create_agent tasks agent now).1.status = "already_exists" ∧
      (create_agent tasks agent now).2 = tasks) := by
  constructor
  · intro hno
    have hfind : tasks.find? (fun t => t.agent == agent) = none := by
      rw [List.find?_eq_none]
      intro t ht
      simpa using hno t ht
    simp [create_agent, hfind]
  · intro hex
    obtain ⟨t, ht, hagent⟩ := hex
    have hsome : (tasks.find? (fun t => t.agent == agent)).isSome :=
      List.find?_isSome.mpr ⟨t, ht, by simpa using hagent⟩
    obtain ⟨u, hu⟩ := Option.isSome_iff_exists.mp hsome
    simp [create_agent, hu]

/-- Witness for C9: creating ashish on the empty table, then again on
the table holding ashish's sentinel row. -/
theorem c9_create_agent_sentinel_witness :
    ((create_agent [] "ashish" 0).1.status = "created" ∧
     (create_agent [] "ashish" 0).2
       = [] ++ [{ agent := "ashish", task_id := -1, status := "agent_created",
                  created_at := 0, completed_at := some 0, workbench_id := none }]) ∧
    ((create_agent [{ agent := "ashish", task_id := -1, status := "agent_created",
                      created_at := 0, completed_at := some 0, workbench_id := none }]
        "ashish" 1).1.status = "already_exists" ∧
     (create_agent [{ agent := "ashish", task_id := -1, status := "agent_created",
                      created_at := 0, completed_at := some 0, workbench_id := none }]
        "ashish" 1).2
       = [{ agent := "ashish", task_id := -1, status := "agent_created",
            created_at := 0, completed_at := some 0, workbench_id := none }]) :=
  ⟨(c9_create_agent_sentinel [] "ashish" 0).1 (by simp),
   (c9_create_agent_sentinel
      [{ agent := "ashish", task_id := -1, status := "agent_created",
         created_at := 0, completed_at := some 0, workbench_id := none }] "ashish" 1).2
     ⟨{ agent := "ashish", task_id := -1, status := "agent_created",
        created_at := 0, completed_at := some 0, workbench_id := none }, by simp, rfl⟩⟩

/-- Maximal runs of decimal digits of a character list, in order: the
model of `re.findall(r'\d+', command)` (with `\d` read as the ASCII
decimal digits). -/
def findallDigits (l : List Char) : List (List Char) :=
  match l with
  | [] => []
  | c :: cs =>
    if c.isDigit then
      (c :: cs.takeWhile Char.isDigit) :: findallDigits (cs.dropWhile Char.isDigit)
    else
      findallDigits cs
termination_by l.length
decreasing_by
  · simp only [List.length_cons]
    exact Nat.lt_succ_of_le (List.dropWhile_sublist _).length_le
  · simp only [List.length_cons]
    exact Nat.lt_succ_self _

/-- Python `int` on a run of decimal digits. -/
def natOfDigits (ds : List Char) : Nat :=
  ds.foldl (fun a c => 10 * a + (c.toNat - 48)) 0

/-- Python `int(s)` on a whole token, abstracted to an optional leading
minus sign followed by at least one digit; `none` models the ValueError
swallowed by the fallback branch of extract_workbench_id. -/
def pyIntOfString (s : String) : Option Int :=
  match s.toList with
  | [] => none
  | c :: ds =>
    if c = Char.ofNat 45 then
      if ds ≠ [] ∧ ds.all Char.isDigit then some (-(natOfDigits ds : Int)) else none
    else if (c :: ds).all Char.isDigit then some ((natOfDigits (c :: ds) : Int)) else none

/-- `web_chat_interface.extract_workbench_id`: the first digit run of
the command via `re.findall` as an integer when one exists; otherwise
`int(parts[1])` when parts has a second token; otherwise None. -/
def extract_workbench_id (command : String) (parts : List String) : Option Int :=
  match findallDigits command.toList with
  | n :: _ => some (natOfDigits n : Int)
  | [] =>
    match parts[1]? with
    | some p => pyIntOfString p
    | none => none

/-- Spec-side "first integer appearing in the string": the value of the
maximal digit run starting at the first digit character. -/
def firstIntegerVal (command : String) : Nat :=
  natOfDigits ((command.toList.dropWhile (fun c => !c.isDigit)).takeWhile Char.isDigit)

theorem findallDigits_head (l : List Char) (hd : l.any Char.isDigit) :
    ∃ rest, findallDigits l
      = ((l.dropWhile (fun c => !c.isDigit)).takeWhile Char.isDigit) :: rest := by
  induction l with
  | nil => simp at hd
  | cons c cs ih =>
    by_cases hc : c.isDigit
    · exact ⟨findallDigits (cs.dropWhile Char.isDigit),
        by simp [findallDigits, hc, List.dropWhile_cons, List.takeWhile_cons]⟩
    · have hd' : cs.any Char.isDigit := by
        rcases (List.any_eq_true.mp hd) with ⟨x, hx, hxd⟩
        rcases List.mem_cons.mp hx with hx1 | hx1
        · exact absurd (hx1 ▸ hxd) hc
        · exact List.any_eq_true.mpr ⟨x, hx1, hxd⟩
      obtain ⟨rest, hrest⟩ := ih hd'
      exact ⟨rest, by simp [findallDigits, hc, List.dropWhile_cons, hrest]⟩

/-- C7: whenever the command string contains a digit,
extract_workbench_id returns the first integer appearing in the string
(the value of the first maximal digit run), regardless of the
surrounding text and of the parts list. -/
theorem c7_extract_workbench_id_first_integer (command : String) (parts : List String)
    (hd : command.toList.any Char.isDigit) :
    extract_workbench_id command parts = some (firstIntegerVal command : Int) := by
  obtain ⟨rest, hrest⟩ := findallDigits_head command.toList hd
  unfold extract_workbench_id firstIntegerVal
  rw [hrest]

/-- Witness for C7 on "roles 3", "show roles 3" and "roles 3 please". -/
theorem c7_extract_workbench_id_first_integer_witness :
    ("roles 3".toList.any Char.isDigit) = true ∧
    extract_workbench_id "roles 3" ["roles", "3"] = some 3 ∧
    extract_workbench_id "show roles 3" ["show", "roles", "3"] = some 3 ∧
    extract_workbench_id "roles 3 please" ["roles", "3", "please"] = some 3 :=
  ⟨by decide,
   (c7_extract_workbench_id_first_integer "roles 3" ["roles", "3"]
      (by decide)).trans (by decide),
   (c7_extract_workbench_id_first_integer "show roles 3" ["show", "roles", "3"]
      (by decide)).trans (by decide),
   (c7_extract_workbench_id_first_integer "roles 3 please" ["roles", "3", "please"]
      (by decide)).trans (by decide)⟩

end OpsCenter
